import Mathlib

/-!
# Verification of the hardcover scraper (tome-backend/scraper/hardcover_scraper.py)

Shallow embedding of the record-validation, import-transaction and
run-loop logic, together with theorems settling the claims of the specification.

Modelling conventions:
* Python `None`-able values become `Option`; Python string truthiness
  (`if not s`) becomes `= ""` / `getD "" = ""` tests.
* The PostgreSQL connection is replaced by an explicit `DB` value.  A SQL
  statement that may raise is driven by a `Failures` oracle: `some e` means
  the statement raises an exception whose text is `e`.  `SAVEPOINT` /
  `ROLLBACK TO SAVEPOINT` semantics become "keep the pre-scope `DB` on
  failure"; `conn.commit()` / `conn.rollback()` become "return the new /
  the original `DB`".  The in-process caches (`_genre_cache`,
  `_author_cache`) and the application log survive rollbacks, exactly as
  Python dictionaries and `logger.error` calls do.
* Python `str.strip()`, `str.isdigit()` and `str.lower()` are modelled by
  the executable `pyStrip`, `pyIsDigit` and `pyLower` below, which work on
  the character list of the string (ASCII whitespace, decimal digits and
  ASCII case folding — the data these call sites see are identifier codes
  and language labels, where the Unicode refinements of Python coincide).
-/

/-! ## Configuration constants (hardcover_scraper.py lines 26-37) -/

def REQUESTS_PER_MINUTE : Nat := 60

def MIN_GENRE_TAG_COUNT : Int := 20

def ISBN_10_LENGTH : Nat := 10

def ISBN_13_LENGTH : Nat := 13

def SUPPORTED_LANGUAGES : List String := ["english", "en"]

def RETRY_DELAY_SECONDS : Nat := 60

def BATCH_DELAY_SECONDS : Nat := 2

/-! ## Python string primitives, modelled on the character list -/

/-- Python `str.strip()`: drop leading and trailing whitespace. -/
def pyStrip (s : String) : String :=
  ⟨((s.data.dropWhile Char.isWhitespace).reverse.dropWhile Char.isWhitespace).reverse⟩

/-- Python `str.isdigit()`: non-empty and every character a decimal digit. -/
def pyIsDigit (s : String) : Bool :=
  !s.data.isEmpty && s.data.all Char.isDigit

/-- Python `str.lower()`: lower-case every character. -/
def pyLower (s : String) : String :=
  ⟨s.data.map Char.toLower⟩

/-! ## Input data model (shapes of the GraphQL response consumed by the scraper) -/

/-- The publisher object of an edition: `publisher { name }`. -/
structure PublisherObj where
  name : Option String
  deriving DecidableEq

/-- The language object of an edition: `language { language }`. -/
structure LanguageObj where
  language : Option String
  deriving DecidableEq

/-- The author object of a contribution: id, name, bio, born and death year. -/
structure AuthorData where
  id : Nat
  name : String
  bio : Option String
  born_year : Option Int
  death_year : Option Int
  deriving DecidableEq

/-- One element of the `contributions` list of an edition.  (A `None` entry of the
Python list behaves exactly like an entry whose `author` is `None`, so both
are modelled by `author := none`.) -/
structure Contribution where
  author : Option AuthorData
  deriving DecidableEq

/-- The `default_physical_edition` payload handed to `import_edition`. -/
structure EditionData where
  id : Nat
  title : Option String
  subtitle : Option String
  isbn_10 : Option String
  isbn_13 : Option String
  pages : Option Int
  release_date : Option String
  publisher : Option PublisherObj
  language : Option LanguageObj
  contributions : List Contribution
  deriving DecidableEq

/-- One `{"tag": ..., "count": ...}` object of `cached_tags["Genre"]`.
A missing `count` key defaults to `0` (`tag_obj.get("count", 0)`). -/
structure TagObj where
  tag : Option String
  count : Int
  deriving DecidableEq

/-- The `cached_tags` argument of `_extract_genres_from_tags`: `genre = none`
models both a falsy `cached_tags` and a missing / non-list `"Genre"` key. -/
structure CachedTags where
  genre : Option (List TagObj)
  deriving DecidableEq

/-! ## Database rows and state -/

/-- A row of the `books` table, as inserted by `import_edition`. -/
structure BookRow where
  id : Nat
  title : String
  subtitle : Option String
  isbn_10 : Option String
  isbn_13 : Option String
  publisher : Option String
  published_date : Option String
  page_count : Option Int
  ebook_page_count : Option Int
  audio_length_seconds : Option Int
  language : String
  description : Option String
  external_source : String
  external_id : Nat
  deriving DecidableEq

/-- A row of the `authors` table. -/
structure AuthorRow where
  id : Nat
  name : String
  bio : Option String
  birth_year : Option Int
  death_year : Option Int
  external_source : String
  external_id : Nat
  deriving DecidableEq

/-- A row of the `genres` table. -/
structure GenreRow where
  id : Nat
  name : String
  deriving DecidableEq

/-- The relational store.  `bookAuthors` rows are
`(book_id, author_id, author_order)`; `bookGenres` rows are
`(book_id, genre_id)`.  `nextId` models the `RETURNING id` sequence. -/
structure DB where
  books : List BookRow
  authors : List AuthorRow
  genres : List GenreRow
  bookAuthors : List (Nat × Nat × Nat)
  bookGenres : List (Nat × Nat)
  nextId : Nat
  deriving DecidableEq

/-- In-process caches of the `DatabaseManager` (`_genre_cache` keyed by
lower-cased name, `_author_cache` keyed by hardcover id). -/
structure Caches where
  genreCache : List (String × Nat)
  authorCache : List (Nat × Nat)
  deriving DecidableEq

/-- Database state, caches and the application error log together.  Rollback
restores only the `db` component: caches and log are plain process memory. -/
structure World where
  db : DB
  caches : Caches
  log : List String
  deriving DecidableEq

/-- Oracle describing which database write statements raise an exception:
`some e` means the statement raises with error text `e`.
`bookInsert` drives the `INSERT INTO books`; `authorOp` (by hardcover id) the
author `SELECT`/`INSERT` inside `SAVEPOINT author_operation`; `genreOp` (by
name) the genre `SELECT`/`INSERT`; `linkAuthor`/`linkGenre` (by internal
book id and author/genre id) the two link `INSERT`s. -/
structure Failures where
  bookInsert : Option String
  authorOp : Nat → Option String
  genreOp : String → Option String
  linkAuthor : Nat → Nat → Option String
  linkGenre : Nat → Nat → Option String

/-- The all-succeeding oracle. -/
def noFailures : Failures :=
  { bookInsert := none
    authorOp := fun _ => none
    genreOp := fun _ => none
    linkAuthor := fun _ _ => none
    linkGenre := fun _ _ => none }

/-- The empty database. -/
def emptyDB : DB := ⟨[], [], [], [], [], 0⟩

/-- The fresh world: empty database, empty caches, empty log. -/
def emptyWorld : World := ⟨emptyDB, ⟨[], []⟩, []⟩

/-! ## Record validation (`DatabaseManager._validate_isbn`, `_check_duplicate_isbn`,
`_validate_language`, lines 587-623) -/

/-- Model of `DatabaseManager._validate_isbn` (lines 587-596): return the stripped
code when it has the expected length and is all digits, `None` otherwise.
The `if not isbn` guard makes the empty string (Python-falsy) absent. -/
def validate_isbn (isbn : Option String) (expected_length : Nat) : Option String :=
  match isbn with
  | none => none
  | some s =>
    if s = "" then none
    else
      let t := pyStrip s
      if t.length = expected_length ∧ pyIsDigit t then some t else none

/-- Model of `DatabaseManager._check_duplicate_isbn` (lines 598-612): error message if
either valid code already exists among persisted books. -/
def check_duplicate_isbn (db : DB) (isbn_10 isbn_13 : Option String) : Option String :=
  let dup10 : Option String :=
    match isbn_10 with
    | some i =>
      if db.books.any (fun b => b.isbn_10 == some i) then
        some ("Duplicate ISBN-10: " ++ i)
      else none
    | none => none
  match dup10 with
  | some m => some m
  | none =>
    match isbn_13 with
    | some j =>
      if db.books.any (fun b => b.isbn_13 == some j) then
        some ("Duplicate ISBN-13: " ++ j)
      else none
    | none => none

/-- Model of `DatabaseManager._validate_language` (lines 614-623): `language` is fixed
to `"en"`; a present, non-empty label whose lower-cased form is outside
`SUPPORTED_LANGUAGES` rejects with `"Non-English language: <lower-cased label>"`. -/
def validate_language (ed : EditionData) : Bool × String :=
  let language := "en"
  match ed.language with
  | some lobj =>
    let lang_name := pyLower (lobj.language.getD "")
    if lang_name ≠ "" ∧ ¬ (SUPPORTED_LANGUAGES.contains lang_name) then
      (false, "Non-English language: " ++ lang_name)
    else (true, language)
  | none => (true, language)

/-! ## Reference resolution (`get_or_create_author`, `get_or_create_genre`,
`genre_exists`, lines 378-552) -/

/-- Model of `DatabaseManager.get_or_create_author` (lines 378-444): cache hit, else
provenance lookup, else insert inside `SAVEPOINT author_operation`; on
exception the savepoint is rolled back, the error logged, `None` returned. -/
def get_or_create_author (F : Failures) (w : World) (hardcover_id : Nat)
    (name : String) (bio : Option String) (born_year death_year : Option Int) :
    Option Nat × World :=
  match w.caches.authorCache.lookup hardcover_id with
  | some aid => (some aid, w)
  | none =>
    match w.db.authors.find?
        (fun a => a.external_source == "hardcover" && a.external_id == hardcover_id) with
    | some a =>
      (some a.id,
       { w with caches :=
          { w.caches with authorCache := (hardcover_id, a.id) :: w.caches.authorCache } })
    | none =>
      match F.authorOp hardcover_id with
      | some e =>
        (none, { w with log := ("Failed to get/create author " ++ name ++ ": " ++ e) :: w.log })
      | none =>
        let aid := w.db.nextId
        let row : AuthorRow := ⟨aid, name, bio, born_year, death_year, "hardcover", hardcover_id⟩
        (some aid,
         { w with
            db := { w.db with authors := row :: w.db.authors, nextId := aid + 1 }
            caches :=
              { w.caches with authorCache := (hardcover_id, aid) :: w.caches.authorCache } })

/-- Model of `DatabaseManager.get_or_create_genre` (lines 446-508): falsy-name guard,
cache hit by lower-cased name, case-insensitive lookup, else insert inside
`SAVEPOINT genre_operation`. -/
def get_or_create_genre (F : Failures) (w : World) (name : String) : Option Nat × World :=
  if name = "" then
    (none, { w with log := "Invalid genre name provided" :: w.log })
  else
    let name_lower := pyLower name
    match w.caches.genreCache.lookup name_lower with
    | some gid => (some gid, w)
    | none =>
      match w.db.genres.find? (fun g => pyLower g.name == name_lower) with
      | some g =>
        (some g.id,
         { w with caches :=
            { w.caches with genreCache := (name_lower, g.id) :: w.caches.genreCache } })
      | none =>
        match F.genreOp name with
        | some e =>
          (none, { w with log := ("Failed to get/create genre " ++ name ++ ": " ++ e) :: w.log })
        | none =>
          let gid := w.db.nextId
          (some gid,
           { w with
              db := { w.db with genres := ⟨gid, name⟩ :: w.db.genres, nextId := gid + 1 }
              caches :=
                { w.caches with genreCache := (name_lower, gid) :: w.caches.genreCache } })

/-- Model of `DatabaseManager.genre_exists` (lines 510-552): falsy-name guard, cache
check, else case-insensitive read (refreshing the cache on a hit). -/
def genre_exists (w : World) (name : String) : Bool × World :=
  if name = "" then (false, w)
  else
    let name_lower := pyLower name
    match w.caches.genreCache.lookup name_lower with
    | some _ => (true, w)
    | none =>
      match w.db.genres.find? (fun g => pyLower g.name == name_lower) with
      | some g =>
        (true,
         { w with caches :=
            { w.caches with genreCache := (name_lower, g.id) :: w.caches.genreCache } })
      | none => (false, w)

/-! ## Author and genre linking (`_process_book_authors`, `_process_book_genres`,
lines 625-696) -/

/-- Body of the `for contribution in contributions` loop of
`DatabaseManager._process_book_authors` (lines 625-672), carrying
`authors_imported` and `author_order`.  A failing link `INSERT` rolls back
only `SAVEPOINT link_book_author` (the `DB` stays as it was after author
resolution) and is logged; `ON CONFLICT DO NOTHING` makes the link insert a
no-op when the pair is already linked. -/
def processAuthorsGo (F : Failures) (book_id : Nat) :
    List Contribution → Nat → Nat → World → Nat × World
  | [], authors_imported, _, w => (authors_imported, w)
  | c :: rest, authors_imported, author_order, w =>
    match c.author with
    | none => processAuthorsGo F book_id rest authors_imported author_order w
    | some a =>
      if a.bio.getD "" = "" then
        processAuthorsGo F book_id rest authors_imported author_order w
      else
        match get_or_create_author F w a.id a.name a.bio a.born_year a.death_year with
        | (none, w1) => processAuthorsGo F book_id rest authors_imported author_order w1
        | (some aid, w1) =>
          match F.linkAuthor book_id aid with
          | some e =>
            processAuthorsGo F book_id rest authors_imported author_order
              { w1 with log :=
                  ("Failed to link author " ++ toString aid ++ " to book "
                    ++ toString book_id ++ ": " ++ e) :: w1.log }
          | none =>
            let db2 :=
              if w1.db.bookAuthors.any (fun l => l.1 == book_id && l.2.1 == aid) then w1.db
              else { w1.db with bookAuthors := (book_id, aid, author_order) :: w1.db.bookAuthors }
            processAuthorsGo F book_id rest (authors_imported + 1) (author_order + 1)
              { w1 with db := db2 }

/-- Model of `DatabaseManager._process_book_authors` (lines 625-672). -/
def process_book_authors (F : Failures) (ed : EditionData) (book_id : Nat) (w : World) :
    Nat × World :=
  processAuthorsGo F book_id ed.contributions 0 1 w

/-- Body of the loop of `DatabaseManager._process_book_genres` (lines 674-696). -/
def processGenresGo (F : Failures) (book_id : Nat) : List String → World → World
  | [], w => w
  | g :: rest, w =>
    if g = "" then processGenresGo F book_id rest w
    else
      match get_or_create_genre F w g with
      | (none, w1) => processGenresGo F book_id rest w1
      | (some gid, w1) =>
        match F.linkGenre book_id gid with
        | some e =>
          processGenresGo F book_id rest
            { w1 with log :=
                ("Failed to link genre " ++ toString gid ++ " to book "
                  ++ toString book_id ++ ": " ++ e) :: w1.log }
        | none =>
          let db2 :=
            if w1.db.bookGenres.any (fun l => l.1 == book_id && l.2 == gid) then w1.db
            else { w1.db with bookGenres := (book_id, gid) :: w1.db.bookGenres }
          processGenresGo F book_id rest { w1 with db := db2 }

/-- Model of `DatabaseManager._process_book_genres` (lines 674-696). -/
def process_book_genres (F : Failures) (genres : List String) (book_id : Nat) (w : World) :
    World :=
  processGenresGo F book_id genres w

/-! ## The per-record import transaction (`DatabaseManager.import_edition`,
lines 698-800) -/

/-- Model of `DatabaseManager.import_edition` (lines 698-800): validate title, ISBNs,
duplicates and language; insert the book row; link authors and genres;
commit.  An exception from the book insert rolls the whole record back
(`ROLLBACK TO SAVEPOINT edition_import` + `conn.rollback()`), logs, and
returns the underlying error text.  Returns
`((success, message, authors_imported), world)`.  The `book_id` argument is
the hardcover book id, which — as in the source — is never used. -/
def import_edition (F : Failures) (w : World) (edition_data : EditionData) (book_id : Nat)
    (book_description : Option String) (genres : List String)
    (ebook_page_count audio_length_seconds : Option Int) :
    (Bool × String × Nat) × World :=
  let title := pyStrip (edition_data.title.getD "")
  if title = "" then ((false, "Missing title", 0), w)
  else
    let isbn_10 := validate_isbn edition_data.isbn_10 ISBN_10_LENGTH
    let isbn_13 := validate_isbn edition_data.isbn_13 ISBN_13_LENGTH
    if isbn_10 = none ∧ isbn_13 = none then ((false, "Missing or invalid ISBNs", 0), w)
    else
      match check_duplicate_isbn w.db isbn_10 isbn_13 with
      | some dup_msg => ((false, dup_msg, 0), w)
      | none =>
        let vl := validate_language edition_data
        if vl.1 = false then ((false, vl.2, 0), w)
        else
          let language := vl.2
          let subtitle0 := pyStrip (edition_data.subtitle.getD "")
          let subtitle := if subtitle0 = "" then none else some subtitle0
          let description0 := pyStrip (book_description.getD "")
          let description := if description0 = "" then none else some description0
          let pages :=
            match edition_data.pages with
            | some p => if 0 < p then some p else none
            | none => none
          let publisher_name :=
            match edition_data.publisher with
            | some pObj => pObj.name
            | none => none
          match F.bookInsert with
          | some e =>
            let error_msg :=
              "Error importing edition " ++ toString edition_data.id ++ ": " ++ e
            ((false, error_msg, 0), { w with log := error_msg :: w.log })
          | none =>
            let bid := w.db.nextId
            let row : BookRow :=
              ⟨bid, title, subtitle, isbn_10, isbn_13, publisher_name,
               edition_data.release_date, pages, ebook_page_count, audio_length_seconds,
               language, description, "hardcover", edition_data.id⟩
            let w1 := { w with db := { w.db with books := row :: w.db.books, nextId := bid + 1 } }
            let r := process_book_authors F edition_data bid w1
            let w2 := process_book_genres F genres bid r.2
            ((true, "Successfully imported: " ++ title, r.1), w2)

/-! ## Genre extraction (`HardcoverScraper._extract_genres_from_tags`, lines 832-862) -/

/-- First pass of `_extract_genres_from_tags`: tags with a truthy name whose
count meets `MIN_GENRE_TAG_COUNT`. -/
def firstPassGenres : List TagObj → List String
  | [] => []
  | t :: rest =>
    match t.tag with
    | some nm =>
      if nm ≠ "" ∧ MIN_GENRE_TAG_COUNT ≤ t.count then nm :: firstPassGenres rest
      else firstPassGenres rest
    | none => firstPassGenres rest

/-- Fallback pass of `_extract_genres_from_tags`: first truthy tag name for
which `genre_exists` answers true (threading the cache-refreshing world). -/
def fallbackGenre (w : World) : List TagObj → Option String × World
  | [] => (none, w)
  | t :: rest =>
    match t.tag with
    | some nm =>
      if nm = "" then fallbackGenre w rest
      else
        let r := genre_exists w nm
        if r.1 then (some nm, r.2) else fallbackGenre r.2 rest
    | none => fallbackGenre w rest

/-- Model of `HardcoverScraper._extract_genres_from_tags` (lines 832-862). -/
def extract_genres_from_tags (w : World) (cached_tags : CachedTags) : List String × World :=
  match cached_tags.genre with
  | none => ([], w)
  | some genre_tags =>
    let genres := firstPassGenres genre_tags
    if genres = [] then
      match fallbackGenre w genre_tags with
      | (some nm, w1) => ([nm], w1)
      | (none, w1) => ([], w1)
    else (genres, w)

/-! ## Specification-side genre definitions (for the refinement claim C5) -/

/-- Spec-side reading of "already exists as a persisted genre": the pure
answer `genre_exists` gives without threading its cache refresh. -/
def specGenreExists (w : World) (name : String) : Bool :=
  name != "" &&
    ((w.caches.genreCache.lookup (pyLower name)).isSome ||
      (w.db.genres.find? (fun g => pyLower g.name == pyLower name)).isSome)

/-- Spec-side first pass: all tags whose count meets-or-exceeds the minimum
threshold, in source order. -/
def specThresholdGenres (gtags : List TagObj) : List String :=
  gtags.filterMap fun t =>
    match t.tag with
    | some nm => if nm ≠ "" ∧ MIN_GENRE_TAG_COUNT ≤ t.count then some nm else none
    | none => none

/-- Spec-side fallback: the first tag, in source order, that already exists
as a persisted genre. -/
def specFallbackGenre (w : World) (gtags : List TagObj) : Option String :=
  gtags.findSome? fun t =>
    match t.tag with
    | some nm => if nm ≠ "" ∧ specGenreExists w nm then some nm else none
    | none => none

/-! ## The scraper loop (`HardcoverScraper.run`, lines 925-1075)

The loop is modelled as a trace of observable events.  Its external inputs
are: the successive pages the API returns (`pages`; the model observes the
finite prefix of the infinite loop that consumes them), an abstraction of
per-record processing (`succeeds b` = `_process_book` returns success for
book id `b`), and the shutdown signal (`shutdown n` = the SIGINT/SIGTERM
handler has cleared `self.running` by the time `n` books have been
processed in total). -/

/-- Observable events of one scraper run. -/
inductive LoopEvent where
  | wait : LoopEvent
  | fetch : Nat → List Nat → LoopEvent
  | attempt : Nat → LoopEvent
  | storeOffset : Nat → LoopEvent
  | sleeping : Nat → LoopEvent
  | endRun : String → LoopEvent
  deriving DecidableEq

/-- The `for book in books` loop of `HardcoverScraper.run` (lines 979-1030):
emits an `attempt` per processed book, stops early when the running flag is
cleared, and counts successful imports.  Returns
`(events, total_processed, batch_editions_imported)`. -/
def processBatch (shutdown succeeds : Nat → Bool) :
    List Nat → Nat → List LoopEvent × Nat × Nat
  | [], processed => ([], processed, 0)
  | b :: rest, processed =>
    if shutdown processed then ([], processed, 0)
    else
      let r := processBatch shutdown succeeds rest (processed + 1)
      (LoopEvent.attempt b :: r.1, r.2.1, (if succeeds b then 1 else 0) + r.2.2)

/-- The `while self.running` loop of `HardcoverScraper.run` (lines 957-1060):
rate-gate then fetch; an empty page resets the offset to 0 and retries; a
non-empty page is processed, the offset advanced by `books_per_batch` and
stored via `update_run_stats`, then the target is checked. -/
def loopGo (books_per_batch target : Nat) (shutdown succeeds : Nat → Bool) :
    List (List Nat) → Nat → Nat → Nat → List LoopEvent
  | [], _, _, _ => []
  | page :: rest, offset, processed, total_imported =>
    if shutdown processed then [LoopEvent.endRun "stopped"]
    else
      LoopEvent.wait :: LoopEvent.fetch offset page ::
        (if page.isEmpty then
          LoopEvent.sleeping RETRY_DELAY_SECONDS ::
            loopGo books_per_batch target shutdown succeeds rest 0 processed total_imported
        else
          let r := processBatch shutdown succeeds page processed
          r.1 ++ LoopEvent.storeOffset (offset + books_per_batch) ::
            (if target ≤ total_imported + r.2.2 then [LoopEvent.endRun "completed"]
             else
              LoopEvent.sleeping BATCH_DELAY_SECONDS ::
                loopGo books_per_batch target shutdown succeeds rest
                  (offset + books_per_batch) r.2.1 (total_imported + r.2.2)))

/-- A row of `scraper_runs` as read by `get_last_incomplete_run`. -/
structure RunRow where
  id : Nat
  status : String
  lastOffset : Option Nat
  deriving DecidableEq

/-- Model of `DatabaseManager.get_last_incomplete_run` (lines 215-228): the most
recent run whose status is `running` or `stopped`.  The `runs` list models
the table already ordered by `started_at DESC`, as the query orders it. -/
def get_last_incomplete_run (runs : List RunRow) : Option RunRow :=
  (runs.filter fun r => r.status == "running" || r.status == "stopped").head?

/-- Start of `HardcoverScraper.run` (lines 934-965) followed by the loop:
resume the last incomplete run at its stored offset (`last_offset or 0`),
else start fresh at offset 0.  Returns the `resume_run_id` passed to
`start_scraper_run` and the event trace. -/
def scraperRun (books_per_batch target : Nat) (shutdown succeeds : Nat → Bool)
    (runs : List RunRow) (pages : List (List Nat)) : Option Nat × List LoopEvent :=
  match get_last_incomplete_run runs with
  | some r =>
    (some r.id, loopGo books_per_batch target shutdown succeeds pages (r.lastOffset.getD 0) 0 0)
  | none => (none, loopGo books_per_batch target shutdown succeeds pages 0 0 0)

/-! ## Trace observers -/

/-- The successive `last_offset` values written to the run ledger. -/
def storedOffsets : List LoopEvent → List Nat
  | [] => []
  | LoopEvent.storeOffset n :: rest => n :: storedOffsets rest
  | _ :: rest => storedOffsets rest

/-- Claim-side predicate for C1: starting from the initial offset of the run,
every stored offset equals the previous one plus one page size. -/
def offsetsAdvanceByBatch (books_per_batch : Nat) : Nat → List Nat → Bool
  | _, [] => true
  | prev, o :: rest => (o == prev + books_per_batch) && offsetsAdvanceByBatch books_per_batch o rest

/-- Auxiliary scanner: `flag` records whether the previous event was a
rate-limiter wait; every fetch must find `flag = true`. -/
def fetchesGatedAux : Bool → List LoopEvent → Bool
  | _, [] => true
  | flag, LoopEvent.fetch _ _ :: rest => flag && fetchesGatedAux false rest
  | _, LoopEvent.wait :: rest => fetchesGatedAux true rest
  | _, _ :: rest => fetchesGatedAux false rest

/-- Every fetch in the trace is immediately preceded by a rate-limiter wait. -/
def fetchesGated (tr : List LoopEvent) : Bool :=
  fetchesGatedAux false tr

/-- Scanner: between a fetch of page `pg` and the next ledger write, the
attempted records follow `pg` in order (a prefix of it), and a ledger write
never happens outside the scope of a fetched page. -/
def attemptsFollowPage : Option (List Nat) → List LoopEvent → Bool
  | _, [] => true
  | _, LoopEvent.fetch _ pg :: rest => attemptsFollowPage (some pg) rest
  | some (b :: ps), LoopEvent.attempt a :: rest => (b == a) && attemptsFollowPage (some ps) rest
  | some [], LoopEvent.attempt _ :: _ => false
  | none, LoopEvent.attempt _ :: _ => false
  | some _, LoopEvent.storeOffset _ :: rest => attemptsFollowPage none rest
  | none, LoopEvent.storeOffset _ :: _ => false
  | pend, _ :: rest => attemptsFollowPage pend rest

/-- Strict variant: a ledger write additionally requires that every record
of the fetched page has been attempted. -/
def storesAfterFullPage : Option (List Nat) → List LoopEvent → Bool
  | _, [] => true
  | _, LoopEvent.fetch _ pg :: rest => storesAfterFullPage (some pg) rest
  | some (b :: ps), LoopEvent.attempt a :: rest => (b == a) && storesAfterFullPage (some ps) rest
  | some [], LoopEvent.attempt _ :: _ => false
  | none, LoopEvent.attempt _ :: _ => false
  | some pend, LoopEvent.storeOffset _ :: rest => pend.isEmpty && storesAfterFullPage none rest
  | none, LoopEvent.storeOffset _ :: _ => false
  | pend, _ :: rest => storesAfterFullPage pend rest

/-- Offset carried by the first fetch of the trace, if any. -/
def firstFetchOffset : List LoopEvent → Option Nat
  | [] => none
  | LoopEvent.fetch o _ :: _ => some o
  | _ :: rest => firstFetchOffset rest

/-- Initial offset chosen at loop start: the stored offset of the resumed run
(`last_offset or 0`), or 0 for a fresh run. -/
def initialOffset (runs : List RunRow) : Nat :=
  match get_last_incomplete_run runs with
  | some r => r.lastOffset.getD 0
  | none => 0

theorem scraperRun_trace (B target : Nat) (sh su : Nat → Bool) (runs : List RunRow)
    (pages : List (List Nat)) :
    (scraperRun B target sh su runs pages).2 =
      loopGo B target sh su pages (initialOffset runs) 0 0 := by
  unfold scraperRun initialOffset
  cases get_last_incomplete_run runs <;> rfl

/-! ## Helper lemmas about batch-processing traces -/

theorem fetchesGatedAux_processBatch (sh su : Nat → Bool) (pg : List Nat) :
    ∀ (p : Nat) (b : Bool) (o : Nat) (l : List LoopEvent),
      fetchesGatedAux b ((processBatch sh su pg p).1 ++ LoopEvent.storeOffset o :: l)
        = fetchesGatedAux false l := by
  induction pg with
  | nil => intro p b o l; simp [processBatch, fetchesGatedAux]
  | cons hd tl ih =>
    intro p b o l
    by_cases h : sh p
    · simp [processBatch, h, fetchesGatedAux]
    · simp [processBatch, h, fetchesGatedAux, ih]

theorem fetchesGatedAux_loopGo (B target : Nat) (sh su : Nat → Bool) :
    ∀ (pages : List (List Nat)) (off p t : Nat),
      fetchesGatedAux false (loopGo B target sh su pages off p t) = true := by
  intro pages
  induction pages with
  | nil => intro off p t; simp [loopGo, fetchesGatedAux]
  | cons page rest ih =>
    intro off p t
    by_cases h : sh p
    · simp [loopGo, h, fetchesGatedAux]
    · by_cases hp : page.isEmpty
      · simp [loopGo, h, hp, fetchesGatedAux, ih]
      · simp only [loopGo, h, hp, Bool.false_eq_true, if_false, if_true,
          Bool.true_eq_false]
        simp only [fetchesGatedAux, Bool.true_and]
        rw [fetchesGatedAux_processBatch]
        by_cases ht : target ≤ t + (processBatch sh su page p).2.2
        · simp [ht, fetchesGatedAux]
        · simp [ht, fetchesGatedAux, ih]

theorem storedOffsets_processBatch (sh su : Nat → Bool) (pg : List Nat) :
    ∀ (p : Nat) (l : List LoopEvent),
      storedOffsets ((processBatch sh su pg p).1 ++ l) = storedOffsets l := by
  induction pg with
  | nil => intro p l; simp [processBatch]
  | cons hd tl ih =>
    intro p l
    by_cases h : sh p
    · simp [processBatch, h]
    · simp [processBatch, h, storedOffsets, ih]

theorem offsetsAdvance_loopGo (B target : Nat) (sh su : Nat → Bool) :
    ∀ (pages : List (List Nat)) (off p t : Nat), (∀ pg ∈ pages, pg ≠ []) →
      offsetsAdvanceByBatch B off (storedOffsets (loopGo B target sh su pages off p t)) = true := by
  intro pages
  induction pages with
  | nil => intro off p t _; simp [loopGo, storedOffsets, offsetsAdvanceByBatch]
  | cons page rest ih =>
    intro off p t hp
    have hpage : page ≠ [] := hp page (List.mem_cons_self page rest)
    have hpe : page.isEmpty = false := by
      cases page with
      | nil => exact absurd rfl hpage
      | cons a b => rfl
    by_cases h : sh p
    · simp [loopGo, h, storedOffsets, offsetsAdvanceByBatch]
    · simp only [loopGo, h, hpe, Bool.false_eq_true, if_false, if_true]
      simp only [storedOffsets]
      rw [storedOffsets_processBatch]
      simp only [storedOffsets, offsetsAdvanceByBatch, beq_self_eq_true, Bool.true_and]
      by_cases ht : target ≤ t + (processBatch sh su page p).2.2
      · simp [ht, storedOffsets, offsetsAdvanceByBatch]
      · simp only [ht, if_false, if_true]
        simp only [storedOffsets]
        exact ih (off + B) (processBatch sh su page p).2.1 (t + (processBatch sh su page p).2.2)
          (fun pg hpg => hp pg (List.mem_cons_of_mem page hpg))

theorem attemptsFollowPage_processBatch (sh su : Nat → Bool) (pg : List Nat) :
    ∀ (p : Nat) (o : Nat) (l : List LoopEvent),
      attemptsFollowPage (some pg) ((processBatch sh su pg p).1 ++ LoopEvent.storeOffset o :: l)
        = attemptsFollowPage none l := by
  induction pg with
  | nil => intro p o l; simp [processBatch, attemptsFollowPage]
  | cons hd tl ih =>
    intro p o l
    by_cases h : sh p
    · simp [processBatch, h, attemptsFollowPage]
    · simp [processBatch, h, attemptsFollowPage, ih]

theorem attemptsFollowPage_loopGo (B target : Nat) (sh su : Nat → Bool) :
    ∀ (pages : List (List Nat)) (pend : Option (List Nat)) (off p t : Nat),
      attemptsFollowPage pend (loopGo B target sh su pages off p t) = true := by
  intro pages
  induction pages with
  | nil => intro pend off p t; simp [loopGo, attemptsFollowPage]
  | cons page rest ih =>
    intro pend off p t
    by_cases h : sh p
    · cases pend with
      | none => simp [loopGo, h, attemptsFollowPage]
      | some pd => simp [loopGo, h, attemptsFollowPage]
    · by_cases hp : page.isEmpty
      · cases pend with
        | none => simp [loopGo, h, hp, attemptsFollowPage, ih]
        | some pd => simp [loopGo, h, hp, attemptsFollowPage, ih]
      · have base :
            attemptsFollowPage pend
              (LoopEvent.wait :: LoopEvent.fetch off page ::
                ((processBatch sh su page p).1 ++ LoopEvent.storeOffset (off + B) ::
                  (if target ≤ t + (processBatch sh su page p).2.2 then
                    [LoopEvent.endRun "completed"]
                   else
                    LoopEvent.sleeping BATCH_DELAY_SECONDS ::
                      loopGo B target sh su rest (off + B) (processBatch sh su page p).2.1
                        (t + (processBatch sh su page p).2.2)))) = true := by
          have h1 : ∀ l, attemptsFollowPage pend (LoopEvent.wait :: LoopEvent.fetch off page :: l)
              = attemptsFollowPage (some page) l := by
            intro l; cases pend <;> simp [attemptsFollowPage]
          rw [h1, attemptsFollowPage_processBatch]
          by_cases ht : target ≤ t + (processBatch sh su page p).2.2
          · simp [ht, attemptsFollowPage]
          · simp [ht, attemptsFollowPage, ih]
        simpa [loopGo, h, hp] using base

theorem storesAfterFullPage_processBatch (sh su : Nat → Bool) (hs : ∀ n, sh n = false)
    (pg : List Nat) :
    ∀ (p : Nat) (o : Nat) (l : List LoopEvent),
      storesAfterFullPage (some pg) ((processBatch sh su pg p).1 ++ LoopEvent.storeOffset o :: l)
        = storesAfterFullPage none l := by
  induction pg with
  | nil => intro p o l; simp [processBatch, storesAfterFullPage]
  | cons hd tl ih =>
    intro p o l
    simp [processBatch, hs p, storesAfterFullPage, ih]

theorem storesAfterFullPage_loopGo (B target : Nat) (sh su : Nat → Bool)
    (hs : ∀ n, sh n = false) :
    ∀ (pages : List (List Nat)) (pend : Option (List Nat)) (off p t : Nat),
      storesAfterFullPage pend (loopGo B target sh su pages off p t) = true := by
  intro pages
  induction pages with
  | nil => intro pend off p t; simp [loopGo, storesAfterFullPage]
  | cons page rest ih =>
    intro pend off p t
    by_cases hp : page.isEmpty
    · cases pend with
      | none => simp [loopGo, hs p, hp, storesAfterFullPage, ih]
      | some pd => simp [loopGo, hs p, hp, storesAfterFullPage, ih]
    · have base :
          storesAfterFullPage pend
            (LoopEvent.wait :: LoopEvent.fetch off page ::
              ((processBatch sh su page p).1 ++ LoopEvent.storeOffset (off + B) ::
                (if target ≤ t + (processBatch sh su page p).2.2 then
                  [LoopEvent.endRun "completed"]
                 else
                  LoopEvent.sleeping BATCH_DELAY_SECONDS ::
                    loopGo B target sh su rest (off + B) (processBatch sh su page p).2.1
                      (t + (processBatch sh su page p).2.2)))) = true := by
        have h1 : ∀ l, storesAfterFullPage pend (LoopEvent.wait :: LoopEvent.fetch off page :: l)
            = storesAfterFullPage (some page) l := by
          intro l; cases pend <;> simp [storesAfterFullPage]
        rw [h1, storesAfterFullPage_processBatch sh su hs]
        by_cases ht : target ≤ t + (processBatch sh su page p).2.2
        · simp [ht, storesAfterFullPage]
        · simp [ht, storesAfterFullPage, ih]
      simpa [loopGo, hs p, hp] using base

/-! ## Claim C1 (corrected) -/

/-- C1 counterexample: the claim "the offset stored in the RunState only
advances forward, one page-size at a time" is false.  In a fresh run with
`books_per_batch = 50` whose third fetched page is empty, the loop resets
its offset to 0 (line 970) and the stored offsets are 50, 100, 50 — the
third stored offset moves backwards. -/
theorem C1_offset_cex :
    offsetsAdvanceByBatch 50 0
      (storedOffsets
        (scraperRun 50 1000 (fun _ => false) (fun _ => false) [] [[1], [2], [], [3]]).2)
      = false := by
  decide

/-- C1 (amended): provided no fetched page is empty, the offset stored in
the RunState advances forward from the initial offset of the run by exactly one
page-size (`books_per_batch`) per batch, and every stored-offset update
happens only after the records of the fetched page have been attempted in
source order — all of them when no shutdown signal arrives, but a mid-batch
shutdown can leave a suffix of the page unattempted while the offset is
still stored advanced past it.  (An empty page resets the in-memory offset
to 0, so the next stored offset can move backwards — the counterexample.) -/
theorem C1_offset_amended (B target : Nat) (sh su : Nat → Bool) (runs : List RunRow)
    (pages : List (List Nat)) (hp : ∀ pg ∈ pages, pg ≠ []) :
    offsetsAdvanceByBatch B (initialOffset runs)
        (storedOffsets (scraperRun B target sh su runs pages).2) = true
    ∧ attemptsFollowPage none (scraperRun B target sh su runs pages).2 = true
    ∧ ((∀ n, sh n = false) →
        storesAfterFullPage none (scraperRun B target sh su runs pages).2 = true) := by
  rw [scraperRun_trace]
  exact ⟨offsetsAdvance_loopGo B target sh su pages (initialOffset runs) 0 0 hp,
    attemptsFollowPage_loopGo B target sh su pages none (initialOffset runs) 0 0,
    fun hs => storesAfterFullPage_loopGo B target sh su hs pages none (initialOffset runs) 0 0⟩

/-- Witness for `C1_offset_amended` at a concrete resumed run. -/
theorem C1_offset_amended_witness :
    offsetsAdvanceByBatch 50 250
        (storedOffsets
          (scraperRun 50 1000 (fun _ => false) (fun _ => false)
            [⟨3, "stopped", some 250⟩] [[1], [2]]).2) = true
    ∧ attemptsFollowPage none
        (scraperRun 50 1000 (fun _ => false) (fun _ => false)
          [⟨3, "stopped", some 250⟩] [[1], [2]]).2 = true
    ∧ storesAfterFullPage none
        (scraperRun 50 1000 (fun _ => false) (fun _ => false)
          [⟨3, "stopped", some 250⟩] [[1], [2]]).2 = true := by
  obtain ⟨h1, h2, h3⟩ :=
    C1_offset_amended 50 1000 (fun _ => false) (fun _ => false)
      [⟨3, "stopped", some 250⟩] [[1], [2]] (by decide)
  exact ⟨h1, h2, h3 fun _ => rfl⟩

/-! ## Claim C3 (confirmed) -/

/-- C3: in every run of the scraper loop, every fetch of a page from the
remote source is immediately preceded by a rate-limiter wait
(`self.rate_limiter.wait()` at line 961 directly before the API call at
line 964, which is the only call site of the page fetch). -/
theorem C3_rate_gate (B target : Nat) (sh su : Nat → Bool) (runs : List RunRow)
    (pages : List (List Nat)) :
    fetchesGated (scraperRun B target sh su runs pages).2 = true := by
  rw [scraperRun_trace]
  exact fetchesGatedAux_loopGo B target sh su pages (initialOffset runs) 0 0

/-! ## Claim C9 (confirmed) -/

/-- C9: when the most recent resumable RunState (status `running` or
`stopped`) has stored offset O, restarting the loop resumes that run (its id
is passed to `start_scraper_run`) and issues its first page fetch at offset
O; with no resumable RunState the run is fresh and the first fetch is at
offset 0. -/
theorem C9_resume :
    (∀ (runs : List RunRow) (r : RunRow) (O : Nat) (page : List Nat)
        (rest : List (List Nat)) (B target : Nat) (sh su : Nat → Bool),
      get_last_incomplete_run runs = some r → r.lastOffset = some O → sh 0 = false →
      (scraperRun B target sh su runs (page :: rest)).1 = some r.id
        ∧ firstFetchOffset (scraperRun B target sh su runs (page :: rest)).2 = some O)
    ∧ (∀ (runs : List RunRow) (page : List Nat) (rest : List (List Nat))
        (B target : Nat) (sh su : Nat → Bool),
      get_last_incomplete_run runs = none → sh 0 = false →
      (scraperRun B target sh su runs (page :: rest)).1 = none
        ∧ firstFetchOffset (scraperRun B target sh su runs (page :: rest)).2 = some 0) := by
  constructor
  · intro runs r O page rest B target sh su hrun hoff hsh
    constructor
    · simp [scraperRun, hrun]
    · simp [scraperRun, hrun, loopGo, hsh, hoff, firstFetchOffset]
  · intro runs page rest B target sh su hrun hsh
    constructor
    · simp [scraperRun, hrun]
    · simp [scraperRun, hrun, loopGo, hsh, firstFetchOffset]

/-- Witness for `C9_resume`: a stopped run at offset 250 resumes at 250; a
fresh run starts at 0. -/
theorem C9_resume_witness :
    ((scraperRun 50 1000 (fun _ => false) (fun _ => false)
        [⟨3, "stopped", some 250⟩] [[1]]).1 = some 3
      ∧ firstFetchOffset (scraperRun 50 1000 (fun _ => false) (fun _ => false)
          [⟨3, "stopped", some 250⟩] [[1]]).2 = some 250)
    ∧ ((scraperRun 50 1000 (fun _ => false) (fun _ => false) [] [[1]]).1 = none
      ∧ firstFetchOffset (scraperRun 50 1000 (fun _ => false) (fun _ => false) [] [[1]]).2
          = some 0) :=
  ⟨C9_resume.1 [⟨3, "stopped", some 250⟩] ⟨3, "stopped", some 250⟩ 250 [1] [] 50 1000
      (fun _ => false) (fun _ => false) (by decide) rfl rfl,
    C9_resume.2 [] [1] [] 50 1000 (fun _ => false) (fun _ => false) (by decide) rfl⟩

/-! ## Claim C4 (confirmed) -/

/-- C4: a candidate identifier code is accepted (and then returns its
trimmed form) iff, after trimming, its length equals the expected fixed
length for its kind (10 or 13) and it consists solely of decimal digits;
otherwise it is treated as absent; an absent input stays absent; and when
both codes are absent after this filter the record is rejected with the
"Missing or invalid ISBNs" reason. -/
theorem C4_isbn_validation :
    (∀ (s : String) (n : Nat), n = ISBN_10_LENGTH ∨ n = ISBN_13_LENGTH →
      validate_isbn (some s) n =
        (if (pyStrip s).length = n ∧ pyIsDigit (pyStrip s) then some (pyStrip s) else none))
    ∧ (∀ n, validate_isbn none n = none)
    ∧ (∀ (F : Failures) (w : World) (ed : EditionData) (bid : Nat) (desc : Option String)
        (genres : List String) (ep al : Option Int),
        pyStrip (ed.title.getD "") ≠ "" →
        validate_isbn ed.isbn_10 ISBN_10_LENGTH = none →
        validate_isbn ed.isbn_13 ISBN_13_LENGTH = none →
        import_edition F w ed bid desc genres ep al
          = ((false, "Missing or invalid ISBNs", 0), w)) := by
  refine ⟨?_, ?_, ?_⟩
  · intro s n hn
    by_cases hs : s = ""
    · subst hs
      have h1 : pyStrip "" = "" := rfl
      rcases hn with h | h <;> subst h <;>
        simp [validate_isbn, h1, ISBN_10_LENGTH, ISBN_13_LENGTH]
    · simp [validate_isbn, hs]
  · intro n; rfl
  · intro F w ed bid desc genres ep al ht h10 h13
    simp [import_edition, ht, h10, h13]

/-- Witness for `C4_isbn_validation`: a 9-digit code for the 10-digit slot
is absent, a 10-digit all-digit code is accepted, and a record whose two
codes are both filtered to absent is rejected. -/
theorem C4_isbn_validation_witness :
    validate_isbn (some "123456789") 10 = none
    ∧ validate_isbn (some "1234567890") 10 = some "1234567890"
    ∧ import_edition noFailures emptyWorld
        ⟨500, some "T", none, some "123456789", none, none, none, none, none, []⟩
        7 none [] none none
      = ((false, "Missing or invalid ISBNs", 0), emptyWorld) := by
  refine ⟨?_, ?_, ?_⟩
  · have h := C4_isbn_validation.1 "123456789" 10 (Or.inl rfl)
    rw [h]; decide
  · have h := C4_isbn_validation.1 "1234567890" 10 (Or.inl rfl)
    rw [h]; decide
  · exact C4_isbn_validation.2.2 noFailures emptyWorld
      ⟨500, some "T", none, some "123456789", none, none, none, none, none, []⟩
      7 none [] none none (by decide) (by decide) (by decide)

/-! ## Claim C6 (confirmed) -/

/-- C6: a record whose language label is present and, lower-cased, outside
the supported set {"english", "en"} is rejected with reason
`"Non-English language: <lower-cased label>"` and nothing is persisted (the
world is unchanged); an absent language label — no language object or a
null label — is treated as English and passes language validation. -/
theorem C6_non_english :
    (∀ (lbl : String) (F : Failures) (w : World) (ed : EditionData) (bid : Nat)
        (desc : Option String) (genres : List String) (ep al : Option Int),
      ed.language = some ⟨some lbl⟩ →
      pyLower lbl ≠ "" →
      SUPPORTED_LANGUAGES.contains (pyLower lbl) = false →
      pyStrip (ed.title.getD "") ≠ "" →
      ¬(validate_isbn ed.isbn_10 ISBN_10_LENGTH = none
          ∧ validate_isbn ed.isbn_13 ISBN_13_LENGTH = none) →
      check_duplicate_isbn w.db (validate_isbn ed.isbn_10 ISBN_10_LENGTH)
          (validate_isbn ed.isbn_13 ISBN_13_LENGTH) = none →
      import_edition F w ed bid desc genres ep al
        = ((false, "Non-English language: " ++ pyLower lbl, 0), w))
    ∧ (∀ ed : EditionData, ed.language = none → validate_language ed = (true, "en"))
    ∧ (∀ (ed : EditionData) (lobj : LanguageObj), ed.language = some lobj →
        lobj.language = none → validate_language ed = (true, "en")) := by
  refine ⟨?_, ?_, ?_⟩
  · intro lbl F w ed bid desc genres ep al hlang hne hsup ht hisbn hdup
    have hmem : pyLower lbl ∉ SUPPORTED_LANGUAGES := by simpa using hsup
    have hv : validate_language ed = (false, "Non-English language: " ++ pyLower lbl) := by
      simp [validate_language, hlang, hne, hmem]
    simp [import_edition, ht, hisbn, hdup, hv]
  · intro ed h; simp [validate_language, h]
  · intro ed lobj h hl
    have hp : pyLower "" = "" := rfl
    simp [validate_language, h, hl, hp]

/-- Witness for `C6_non_english`: a record labelled "French" is rejected
with reason "Non-English language: french" and the world is unchanged; an
edition with no language object passes as "en". -/
theorem C6_non_english_witness :
    import_edition noFailures emptyWorld
        ⟨500, some "T", none, some "1234567890", none, none, none, none,
          some ⟨some "French"⟩, []⟩ 7 none [] none none
      = ((false, "Non-English language: french", 0), emptyWorld)
    ∧ validate_language
        ⟨500, some "T", none, some "1234567890", none, none, none, none, none, []⟩
      = (true, "en") :=
  ⟨C6_non_english.1 "French" noFailures emptyWorld
      ⟨500, some "T", none, some "1234567890", none, none, none, none,
        some ⟨some "French"⟩, []⟩ 7 none [] none none
      rfl (by decide) (by decide) (by decide) (by decide) rfl,
    C6_non_english.2.1
      ⟨500, some "T", none, some "1234567890", none, none, none, none, none, []⟩ rfl⟩

/-! ## Claim C5 (confirmed) -/

theorem genre_exists_spec (w : World) (name : String) :
    (genre_exists w name).1 = specGenreExists w name := by
  by_cases h : name = ""
  · subst h; simp [genre_exists, specGenreExists]
  · simp only [genre_exists, specGenreExists, h, if_false]
    cases hc : w.caches.genreCache.lookup (pyLower name) with
    | some v => simp [hc, h]
    | none =>
      cases hf : w.db.genres.find? (fun g => pyLower g.name == pyLower name) with
      | some g => simp [hc, hf, h]
      | none => simp [hc, hf, h]

theorem genre_exists_false_world (w : World) (name : String) :
    (genre_exists w name).1 = false → (genre_exists w name).2 = w := by
  simp only [genre_exists]
  split
  · intro _; rfl
  · split
    · intro h; exact absurd h (by simp)
    · split
      · intro h; exact absurd h (by simp)
      · intro _; rfl

theorem firstPassGenres_spec (gtags : List TagObj) :
    firstPassGenres gtags = specThresholdGenres gtags := by
  induction gtags with
  | nil => rfl
  | cons t rest ih =>
    cases htag : t.tag with
    | none => simp [firstPassGenres, specThresholdGenres, htag, ih,
        List.filterMap_cons]
    | some nm =>
      by_cases hcond : nm ≠ "" ∧ MIN_GENRE_TAG_COUNT ≤ t.count
      · simpa [firstPassGenres, specThresholdGenres, htag, hcond, List.filterMap_cons]
          using ih
      · simpa [firstPassGenres, specThresholdGenres, htag, hcond, List.filterMap_cons]
          using ih

theorem fallbackGenre_spec (gtags : List TagObj) :
    ∀ w : World, (fallbackGenre w gtags).1 = specFallbackGenre w gtags := by
  induction gtags with
  | nil => intro w; rfl
  | cons t rest ih =>
    intro w
    cases htag : t.tag with
    | none => simp [fallbackGenre, specFallbackGenre, htag, List.findSome?_cons,
        ih w, specFallbackGenre]
    | some nm =>
      by_cases hnm : nm = ""
      · subst hnm
        simpa [fallbackGenre, specFallbackGenre, htag, List.findSome?_cons] using ih w
      · cases hb : (genre_exists w nm).1 with
        | true =>
          have hs : specGenreExists w nm = true := by rw [← genre_exists_spec, hb]
          simp [fallbackGenre, specFallbackGenre, htag, hnm, hb, hs, List.findSome?_cons]
        | false =>
          have hs : specGenreExists w nm = false := by rw [← genre_exists_spec, hb]
          have hw : (genre_exists w nm).2 = w := genre_exists_false_world w nm hb
          simp [fallbackGenre, specFallbackGenre, htag, hnm, hb, hs, hw,
            List.findSome?_cons, ih w]

/-- C5: genre extraction from a tag/count structure first selects all tags
whose count meets or exceeds the minimum threshold (20), in source order;
if none qualify it falls back to at most one tag — the first, in source
order, that already exists as a persisted genre — and otherwise returns no
genres.  A missing/falsy `Genre` tag structure yields no genres. -/
theorem C5_genre_extraction (w : World) (gtags : List TagObj) :
    (extract_genres_from_tags w ⟨some gtags⟩).1 =
      (if specThresholdGenres gtags = [] then (specFallbackGenre w gtags).toList
       else specThresholdGenres gtags)
    ∧ (extract_genres_from_tags w ⟨none⟩).1 = []
    ∧ MIN_GENRE_TAG_COUNT = 20 := by
  refine ⟨?_, rfl, rfl⟩
  simp only [extract_genres_from_tags, firstPassGenres_spec]
  by_cases h : specThresholdGenres gtags = []
  · have hf := fallbackGenre_spec gtags w
    cases hfb : fallbackGenre w gtags with
    | mk o w1 =>
      rw [hfb] at hf
      cases o with
      | some nm => simp [h, hfb, ← hf]
      | none => simp [h, hfb, ← hf]
  · simp [h]

/-! ## Claim C7 (confirmed) -/

/-- C7: a contributor whose biography is empty or null is skipped entirely —
processing a contribution list beginning with such a contributor is
literally the same computation as processing the rest: no author row is
created, no book-author link is inserted, no counter moves, nothing is
logged, regardless of the other fields of the contributor; and an edition whose
only contributor lacks a bio imports zero authors with the world unchanged. -/
theorem C7_bio_gating (F : Failures) (book_id : Nat) (c : Contribution)
    (rest : List Contribution) (count order : Nat) (w : World) (a : AuthorData)
    (hc : c.author = some a) (hbio : a.bio.getD "" = "") :
    processAuthorsGo F book_id (c :: rest) count order w
      = processAuthorsGo F book_id rest count order w
    ∧ (∀ ed : EditionData, ed.contributions = [c] →
        process_book_authors F ed book_id w = (0, w)) := by
  constructor
  · simp [processAuthorsGo, hc, hbio]
  · intro ed hed
    simp [process_book_authors, hed, processAuthorsGo, hc, hbio]

/-- Witness for `C7_bio_gating` on a contributor with a null bio and
otherwise valid fields. -/
theorem C7_bio_gating_witness :
    processAuthorsGo noFailures 0 [⟨some ⟨5, "N", none, some 1900, some 1980⟩⟩] 0 1 emptyWorld
      = processAuthorsGo noFailures 0 [] 0 1 emptyWorld
    ∧ process_book_authors noFailures
        ⟨500, some "T", none, none, none, none, none, none, none,
          [⟨some ⟨5, "N", none, some 1900, some 1980⟩⟩]⟩ 0 emptyWorld
      = (0, emptyWorld) := by
  obtain ⟨h1, h2⟩ :=
    C7_bio_gating noFailures 0 ⟨some ⟨5, "N", none, some 1900, some 1980⟩⟩ [] 0 1
      emptyWorld ⟨5, "N", none, some 1900, some 1980⟩ rfl rfl
  exact ⟨h1, h2
    ⟨500, some "T", none, none, none, none, none, none, none,
      [⟨some ⟨5, "N", none, some 1900, some 1980⟩⟩]⟩ rfl⟩

/-! ## Claim C8 (confirmed) -/

/-- C8: when the primary book insert raises, the whole record is rolled
back — the returned world carries the database exactly as it was (only the
application log gains the error message) — and `import_edition` returns a
rejection whose text carries the underlying error. -/
theorem C8_primary_failure (F : Failures) (w : World) (ed : EditionData)
    (bid : Nat) (desc : Option String) (genres : List String) (ep al : Option Int)
    (err : String)
    (htitle : pyStrip (ed.title.getD "") ≠ "")
    (hisbn : ¬(validate_isbn ed.isbn_10 ISBN_10_LENGTH = none
        ∧ validate_isbn ed.isbn_13 ISBN_13_LENGTH = none))
    (hdup : check_duplicate_isbn w.db (validate_isbn ed.isbn_10 ISBN_10_LENGTH)
        (validate_isbn ed.isbn_13 ISBN_13_LENGTH) = none)
    (hlang : (validate_language ed).1 = true)
    (hf : F.bookInsert = some err) :
    import_edition F w ed bid desc genres ep al
      = ((false, "Error importing edition " ++ toString ed.id ++ ": " ++ err, 0),
         { w with log :=
            ("Error importing edition " ++ toString ed.id ++ ": " ++ err) :: w.log }) := by
  simp [import_edition, htitle, hisbn, hdup, hlang, hf]

/-- Witness for `C8_primary_failure`: a valid record whose book insert
raises "constraint violation" is rejected with that text and leaves the
database untouched. -/
theorem C8_primary_failure_witness :
    import_edition { noFailures with bookInsert := some "constraint violation" }
        emptyWorld ⟨500, some "T", none, some "1234567890", none, none, none, none, none, []⟩
        7 none [] none none
      = ((false, "Error importing edition 500: constraint violation", 0),
         { emptyWorld with log := ["Error importing edition 500: constraint violation"] }) :=
  C8_primary_failure { noFailures with bookInsert := some "constraint violation" }
    emptyWorld ⟨500, some "T", none, some "1234567890", none, none, none, none, none, []⟩
    7 none [] none none "constraint violation"
    (by decide) (by decide) rfl rfl rfl

/-! ## Claim C10 (confirmed) -/

theorem validate_language_en (ed : EditionData) (h : (validate_language ed).1 = true) :
    (validate_language ed).2 = "en" := by
  cases hl : ed.language with
  | none => simp [validate_language, hl]
  | some lobj =>
    by_cases hmem : pyLower (lobj.language.getD "") ∈ SUPPORTED_LANGUAGES
    · simp [validate_language, hl, hmem]
    · by_cases hne : pyLower (lobj.language.getD "") = ""
      · simp [validate_language, hl, hne]
      · exfalso
        simp [validate_language, hl, hmem, hne] at h

theorem books_get_or_create_author (F : Failures) (w : World) (hid : Nat)
    (name : String) (bio : Option String) (by1 dy1 : Option Int) :
    ((get_or_create_author F w hid name bio by1 dy1).2).db.books = w.db.books := by
  simp only [get_or_create_author]
  split
  · rfl
  · split
    · rfl
    · split
      · rfl
      · rfl

theorem books_processAuthorsGo (F : Failures) (book_id : Nat) :
    ∀ (cs : List Contribution) (count order : Nat) (w : World),
      ((processAuthorsGo F book_id cs count order w).2).db.books = w.db.books := by
  intro cs
  induction cs with
  | nil => intro count order w; rfl
  | cons c rest ih =>
    intro count order w
    cases hca : c.author with
    | none => simp only [processAuthorsGo, hca]; exact ih count order w
    | some a =>
      by_cases hbio : a.bio.getD "" = ""
      · simp only [processAuthorsGo, hca, hbio, if_true]; exact ih count order w
      · simp only [processAuthorsGo, hca, hbio, if_false]
        cases hg : get_or_create_author F w a.id a.name a.bio a.born_year a.death_year with
        | mk o w1 =>
          have hbooks : w1.db.books = w.db.books := by
            have hh := books_get_or_create_author F w a.id a.name a.bio a.born_year a.death_year
            rw [hg] at hh; exact hh
          cases o with
          | none => rw [ih count order w1]; exact hbooks
          | some aid =>
            dsimp only
            cases hl : F.linkAuthor book_id aid with
            | some e => dsimp only; rw [ih]; exact hbooks
            | none => dsimp only; rw [ih]; split <;> exact hbooks

theorem books_get_or_create_genre (F : Failures) (w : World) (name : String) :
    ((get_or_create_genre F w name).2).db.books = w.db.books := by
  simp only [get_or_create_genre]
  split
  · rfl
  · split
    · rfl
    · split
      · rfl
      · split
        · rfl
        · rfl

theorem books_processGenresGo (F : Failures) (book_id : Nat) :
    ∀ (gs : List String) (w : World),
      ((processGenresGo F book_id gs w)).db.books = w.db.books := by
  intro gs
  induction gs with
  | nil => intro w; rfl
  | cons g rest ih =>
    intro w
    by_cases hg0 : g = ""
    · simp only [processGenresGo, hg0, if_true]; exact ih w
    · simp only [processGenresGo, hg0, if_false]
      cases hg : get_or_create_genre F w g with
      | mk o w1 =>
        have hbooks : w1.db.books = w.db.books := by
          have hh := books_get_or_create_genre F w g
          rw [hg] at hh; exact hh
        cases o with
        | none => rw [ih w1]; exact hbooks
        | some gid =>
          dsimp only
          cases hl : F.linkGenre book_id gid with
          | some e => dsimp only; rw [ih]; exact hbooks
          | none => dsimp only; rw [ih]; split <;> exact hbooks

theorem books_process_book_authors (F : Failures) (ed : EditionData) (book_id : Nat)
    (w : World) :
    ((process_book_authors F ed book_id w).2).db.books = w.db.books :=
  books_processAuthorsGo F book_id ed.contributions 0 1 w

theorem books_process_book_genres (F : Failures) (gs : List String) (book_id : Nat)
    (w : World) :
    (process_book_genres F gs book_id w).db.books = w.db.books :=
  books_processGenresGo F book_id gs w

/-- C10: every book row added by a successful `import_edition` carries the
literal language string "en", whatever the original form of the source label was
(language validation either rejects the record or yields exactly "en", so
the original label text is never stored). -/
theorem C10_language_stored_en (F : Failures) (w : World) (ed : EditionData)
    (bid : Nat) (desc : Option String) (genres : List String) (ep al : Option Int)
    (msg : String) (k : Nat) (w2 : World)
    (h : import_edition F w ed bid desc genres ep al = ((true, msg, k), w2)) :
    ∀ b ∈ w2.db.books, b ∉ w.db.books → b.language = "en" := by
  simp only [import_edition] at h
  split at h
  · exact absurd h (by simp)
  · split at h
    · exact absurd h (by simp)
    · split at h
      · exact absurd h (by simp)
      · split at h
        · exact absurd h (by simp)
        · rename_i hvl
          split at h
          · exact absurd h (by simp)
          · have hlang : (validate_language ed).1 = true := by
              cases hv : (validate_language ed).1
              · exact absurd hv hvl
              · rfl
            have hw2 : w2 = _ := (congrArg Prod.snd h).symm
            subst hw2
            intro b hb hnb
            rw [books_process_book_genres, books_process_book_authors] at hb
            simp only [List.mem_cons] at hb
            rcases hb with rfl | hb2
            · exact validate_language_en ed hlang
            · exact absurd hb2 hnb

/-- Witness for `C10_language_stored_en`: a record labelled "English" is
persisted with language column exactly "en". -/
theorem C10_language_stored_en_witness :
    (⟨0, "T", none, some "1234567890", none, none, none, none, none, none,
      "en", none, "hardcover", 500⟩ : BookRow).language = "en" :=
  C10_language_stored_en noFailures emptyWorld
    ⟨500, some "T", none, some "1234567890", none, none, none, none,
      some ⟨some "English"⟩, []⟩ 7 none [] none none
    "Successfully imported: T" 0
    (import_edition noFailures emptyWorld
      ⟨500, some "T", none, some "1234567890", none, none, none, none,
        some ⟨some "English"⟩, []⟩ 7 none [] none none).2
    rfl
    ⟨0, "T", none, some "1234567890", none, none, none, none, none, none,
      "en", none, "hardcover", 500⟩
    (by decide) (by decide)

/-! ## Claim C2 (confirmed) -/

/-- A record with two bio-carrying contributors, used for claim C2. -/
def twoAuthorEdition (T nameA bioA nameB bioB : String) : EditionData :=
  { id := 500, title := some T, subtitle := none, isbn_10 := none,
    isbn_13 := some "1234567890123", pages := none, release_date := none,
    publisher := none, language := none,
    contributions :=
      [⟨some ⟨11, nameA, some bioA, none, none⟩⟩,
       ⟨some ⟨22, nameB, some bioB, none, none⟩⟩] }

/-- C2: importing a record with two authors where the first book-author link
insert raises and the second succeeds rolls back only the savepoint of the
failing link: the import still succeeds with `authors_imported = 1`, the
primary book row is committed, both author rows are committed (the row of the failing
author was created in its own already-released savepoint), the
successful link `(book 0, author 2, order 1)` is present and no link to the
failing author (internal id 1) exists. -/
theorem C2_partial_link (F : Failures) (err T nameA bioA nameB bioB : String)
    (hT : pyStrip T ≠ "") (hbA : bioA ≠ "") (hbB : bioB ≠ "")
    (hb : F.bookInsert = none)
    (ha1 : F.authorOp 11 = none) (ha2 : F.authorOp 22 = none)
    (hl1 : F.linkAuthor 0 1 = some err) (hl2 : F.linkAuthor 0 2 = none) :
    (import_edition F emptyWorld (twoAuthorEdition T nameA bioA nameB bioB) 7
        none [] none none).1
      = (true, "Successfully imported: " ++ pyStrip T, 1)
    ∧ ((import_edition F emptyWorld (twoAuthorEdition T nameA bioA nameB bioB) 7
        none [] none none).2).db.books.map (fun b => b.external_id) = [500]
    ∧ ((import_edition F emptyWorld (twoAuthorEdition T nameA bioA nameB bioB) 7
        none [] none none).2).db.authors.map (fun a => a.external_id) = [22, 11]
    ∧ ((import_edition F emptyWorld (twoAuthorEdition T nameA bioA nameB bioB) 7
        none [] none none).2).db.bookAuthors = [(0, 2, 1)] := by
  have hlen : (pyStrip "1234567890123").length = ISBN_13_LENGTH := by decide
  have hdig : pyIsDigit (pyStrip "1234567890123") = true := by decide
  have hms : pyStrip "" = "" := rfl
  refine ⟨?_, ?_, ?_, ?_⟩ <;>
    simp [import_edition, twoAuthorEdition, validate_isbn, check_duplicate_isbn,
      validate_language, process_book_authors, processAuthorsGo, get_or_create_author,
      process_book_genres, processGenresGo, emptyWorld, emptyDB, hlen, hdig, hms,
      hT, hbA, hbB, hb, ha1, ha2, hl1, hl2, List.lookup, List.find?]

/-- Failure oracle for the C2 witness: only the link insert for
(book 0, author 1) raises. -/
def c2DemoFailures : Failures :=
  { noFailures with
      linkAuthor := fun b a => if b == 0 && a == 1 then some "boom" else none }

/-- Witness for `C2_partial_link` at a concrete record and failure oracle. -/
theorem C2_partial_link_witness :
    (import_edition c2DemoFailures emptyWorld
        (twoAuthorEdition "T" "A" "bioA" "B" "bioB") 7 none [] none none).1
      = (true, "Successfully imported: T", 1)
    ∧ ((import_edition c2DemoFailures emptyWorld
        (twoAuthorEdition "T" "A" "bioA" "B" "bioB") 7 none [] none none).2).db.bookAuthors
      = [(0, 2, 1)] := by
  obtain ⟨h1, h2, h3, h4⟩ :=
    C2_partial_link c2DemoFailures "boom" "T" "A" "bioA" "B" "bioB"
      (by decide) (by decide) (by decide) rfl rfl rfl rfl rfl
  exact ⟨h1, h4⟩
